import Mathlib

/-!
Verification development for the envelope / schema-transform pipeline of the
Powertools parser package. The DynamoDB stream schemas and their unmarshalling
transform are embedded from `packages/parser/src/schemas/dynamodb.ts`; the
attribute-value codec (imported there from the commons package) and the
envelope parse/safeParse boundary (whose source file is outside the excerpt)
are modelled from the specification.
-/

/-- A JSON-like value: the raw event documents and the plain values produced
by decoding type-tagged attribute maps. Numbers are modelled as integers
(the numeric policy of the codec is implementation-defined per the spec; the
scenarios only exercise integral numbers). -/
inductive Value where
  | null : Value
  | bool : Bool → Value
  | num : Int → Value
  | str : String → Value
  | arr : List Value → Value
  | obj : List (String × Value) → Value
deriving Repr

/-- One element of a validation-issue path: a property accessor or an array
index. -/
inductive PathEl where
  | field : String → PathEl
  | index : Nat → PathEl
deriving Repr, DecidableEq

/-- One structured validation failure: a code, a message, a path of accessors
from the root of the event, and a fatal flag (set by custom issues raised from
a transform). -/
structure Issue where
  code : String
  message : String
  path : List PathEl
  fatal : Bool := false
deriving Repr, DecidableEq

/-- The uniform error constructed at the parse boundary: a human-readable
message plus the ordered list of underlying validation issues. -/
structure ParseError where
  message : String
  cause : List Issue
deriving Repr, DecidableEq

/-- Result of running a schema on a value: the typed output, or the ordered
list of all issues collected (the validation library reports every issue, not
only the first). -/
inductive VRes (α : Type) where
  | ok : α → VRes α
  | err : List Issue → VRes α
deriving Repr

/-- Outcome of `safeParse`: success with the data, or failure carrying the
`ParseError` and the original, untransformed event. -/
inductive Outcome (α : Type) where
  | success : α → Outcome α
  | failure : ParseError → Value → Outcome α
deriving Repr

namespace VRes

/-- Applicative combination that accumulates issues from both sides, mirroring
how the validation library collects issues across object fields. -/
def map2 {α β γ : Type} (f : α → β → γ) : VRes α → VRes β → VRes γ
  | .ok a, .ok b => .ok (f a b)
  | .ok _, .err e => .err e
  | .err e, .ok _ => .err e
  | .err e₁, .err e₂ => .err (e₁ ++ e₂)

/-- Prefix every issue's path with one accessor (the library prepends the
field name or array index when reporting nested issues). -/
def pushPath {α : Type} (el : PathEl) : VRes α → VRes α
  | .ok a => .ok a
  | .err es => .err (es.map fun i => { i with path := el :: i.path })

def map {α β : Type} (f : α → β) : VRes α → VRes β
  | .ok a => .ok (f a)
  | .err e => .err e

end VRes

/-- Look a field up in a JSON object value (`none` when the value is not an
object or the field is absent, i.e. `undefined` in the source language). -/
def lookupField (v : Value) (k : String) : Option Value :=
  match v with
  | .obj fields => fields.lookup k
  | _ => none

/-! ## Structured-Value Codec (modelled from the spec)

`unmarshallDynamoDB` is imported in `dynamodb.ts` from
`@aws-lambda-powertools/commons/utils/unmarshallDynamoDB`, whose source is not
part of the excerpt. -/

/-- Accumulate a base-10 digit string into a natural number; `none` on any
non-digit character. -/
def digitsToNatAux : List Char → Nat → Option Nat
  | [], acc => some acc
  | c :: rest, acc =>
    if c.isDigit then digitsToNatAux rest (acc * 10 + (c.toNat - '0'.toNat))
    else none

/-- Modelled from the spec: parsing of the numeric kind's string payload
(stored as a string to avoid precision loss); the numeric policy is
implementation-defined and modelled here as optionally-signed integer
parsing. -/
def parseNumericString (s : String) : Option Int :=
  match s.toList with
  | [] => none
  | '-' :: rest =>
    match rest with
    | [] => none
    | _ => (digitsToNatAux rest 0).map (fun n => -(n : Int))
  | cs => (digitsToNatAux cs 0).map (fun n => (n : Int))

/-- Modelled from the spec: a string-set (or binary-set) kind's payload is a
list whose members must all be strings. -/
def decodeStringSet : List Value → Option (List Value)
  | [] => some []
  | .str s :: rest => (decodeStringSet rest).map (Value.str s :: ·)
  | _ => none

/-- Modelled from the spec: a number-set kind's payload is a list whose
members must all be numeric-parseable strings. -/
def decodeNumberSet : List Value → Option (List Value)
  | [] => some []
  | .str s :: rest =>
    match parseNumericString s, decodeNumberSet rest with
    | some n, some dr => some (Value.num n :: dr)
    | _, _ => none
  | _ => none

mutual

/-- Modelled from the spec: decoding of a single structured (type-tagged)
value, the core of the Structured-Value Codec that `dynamodb.ts` imports as
`unmarshallDynamoDB` from the commons package. A structured value is a mapping
with exactly one kind tag; decode fails (`none`) when zero or more than one
kind tag is present, when the tag is unknown, or when the tag's payload does
not match the kind's expected shape. Compound kinds (`M`, `L`) recurse; set
kinds decode to a collection of decoded primitives; the numeric kind stores
its value as a string and must be numeric-string-parseable (modelled as
integer parsing, the precision policy being implementation-defined). -/
def decodeAttrValue : Value → Option Value
  | .obj [(tag, payload)] =>
    match tag, payload with
    | "S", .str s => some (.str s)
    | "N", .str s => (parseNumericString s).map Value.num
    | "BOOL", .bool b => some (.bool b)
    | "NULL", .bool true => some .null
    | "B", .str s => some (.str s)
    | "M", .obj entries => (decodeAttrEntries entries).map Value.obj
    | "L", .arr elems => (decodeAttrList elems).map Value.arr
    | "SS", .arr elems => (decodeStringSet elems).map Value.arr
    | "NS", .arr elems => (decodeNumberSet elems).map Value.arr
    | "BS", .arr elems => (decodeStringSet elems).map Value.arr
    | _, _ => none
  | _ => none

/-- Modelled from the spec: recursive decode of a map kind's entries. -/
def decodeAttrEntries : List (String × Value) → Option (List (String × Value))
  | [] => some []
  | (k, v) :: rest =>
    match decodeAttrValue v, decodeAttrEntries rest with
    | some dv, some dr => some ((k, dv) :: dr)
    | _, _ => none

/-- Modelled from the spec: recursive decode of a list kind's elements. -/
def decodeAttrList : List Value → Option (List Value)
  | [] => some []
  | v :: rest =>
    match decodeAttrValue v, decodeAttrList rest with
    | some dv, some dr => some (dv :: dr)
    | _, _ => none

end

/-- Modelled from the spec: `unmarshallDynamoDB` applied to an attribute map
(a record from attribute name to structured value), decoding each entry's
structured value; fails (`none`) when any entry fails to decode. -/
def unmarshallDynamoDB : List (String × Value) → Option (List (String × Value))
  | [] => some []
  | (k, v) :: rest =>
    match decodeAttrValue v, unmarshallDynamoDB rest with
    | some dv, some dr => some ((k, dv) :: dr)
    | _, _ => none

/-! ## Schema-validation helpers

The validation engine itself (zod) is an external collaborator per the spec;
these helpers model the slice of its behavior the embedded schemas use:
object schemas validate every declared field and collect the issues of all
failing fields (path-prefixed), missing required fields yield a `Required`
issue, and primitive checks yield `invalid_type` issues. -/

/-- Issue for a missing required field. -/
def requiredIssue (name : String) : Issue :=
  { code := "invalid_type", message := "Required", path := [.field name] }

/-- Issue for a value of the wrong primitive type (path is filled in by the
field that reports it). -/
def invalidTypeIssue (expected : String) : Issue :=
  { code := "invalid_type", message := "Invalid input: expected " ++ expected
    path := [] }

/-- Validate a required field of an object: missing yields a `Required` issue
at the field's path; present runs the field schema with the field name
prefixed onto any nested issue paths. -/
def requiredField {α : Type} (o : List (String × Value)) (name : String)
    (p : Value → VRes α) : VRes α :=
  match o.lookup name with
  | none => .err [requiredIssue name]
  | some v => VRes.pushPath (.field name) (p v)

/-- Validate an optional field of an object: absent is accepted as `none`. -/
def optionalField {α : Type} (o : List (String × Value)) (name : String)
    (p : Value → VRes α) : VRes (Option α) :=
  match o.lookup name with
  | none => .ok none
  | some v => VRes.map some (VRes.pushPath (.field name) (p v))

def checkString : Value → VRes String
  | .str s => .ok s
  | _ => .err [invalidTypeIssue "string"]

def checkNumber : Value → VRes Int
  | .num n => .ok n
  | _ => .err [invalidTypeIssue "number"]

def checkBool : Value → VRes Bool
  | .bool b => .ok b
  | _ => .err [invalidTypeIssue "boolean"]

/-- `z.literal(lit)` on a string value. -/
def checkLiteral (lit : String) : Value → VRes String
  | .str s =>
    if s = lit then .ok s
    else .err [{ code := "invalid_literal", message := "Invalid literal value, expected " ++ lit, path := [] }]
  | _ => .err [invalidTypeIssue "string"]

/-- `z.enum(options)` on a string value. -/
def checkEnum (options : List String) : Value → VRes String
  | .str s =>
    if s ∈ options then .ok s
    else .err [{ code := "invalid_enum_value", message := "Invalid enum value", path := [] }]
  | _ => .err [{ code := "invalid_enum_value", message := "Invalid enum value", path := [] }]

/-- Each entry's value must itself be an object; issues are reported at the
entry's key, accumulating across entries. -/
def checkEntriesAreObjects : List (String × Value) → VRes (List (String × Value))
  | [] => .ok []
  | (k, v) :: rest =>
    let hd : VRes Value :=
      match v with
      | .obj fields => .ok (.obj fields)
      | _ => .err [{ code := "invalid_type", message := "Invalid input: expected object", path := [.field k] }]
    VRes.map2 (fun h t => (k, h) :: t) hd (checkEntriesAreObjects rest)

/-- `z.record(z.string(), z.record(z.string(), z.any()))`: an object each of
whose values is itself an object (a still-marshalled attribute map). -/
def checkAttributeMap : Value → VRes (List (String × Value))
  | .obj entries => checkEntriesAreObjects entries
  | _ => .err [invalidTypeIssue "object"]

/-- `z.record(z.string(), z.any())`: any object, entries kept as-is. -/
def checkRecordAny : Value → VRes (List (String × Value))
  | .obj entries => .ok entries
  | _ => .err [invalidTypeIssue "object"]

/-- Entries of a `z.record(z.string(), z.string())`. -/
def checkStringEntries : List (String × Value) → VRes (List (String × String))
  | [] => .ok []
  | (k, v) :: rest =>
    let hd : VRes String :=
      match v with
      | .str s => .ok s
      | _ => .err [{ code := "invalid_type", message := "Invalid input: expected string", path := [.field k] }]
    VRes.map2 (fun h t => (k, h) :: t) hd (checkStringEntries rest)

/-- `z.record(z.string(), z.string())`. -/
def checkRecordString : Value → VRes (List (String × String))
  | .obj entries => checkStringEntries entries
  | _ => .err [invalidTypeIssue "object"]

/-- Validate the elements of an array in order, prefixing each element's
issues with its index and accumulating issues across all elements. -/
def parseArrayElems {α : Type} (p : Value → VRes α) : Nat → List Value → VRes (List α)
  | _, [] => .ok []
  | i, v :: rest =>
    VRes.map2 List.cons (VRes.pushPath (.index i) (p v)) (parseArrayElems p (i + 1) rest)

/-- `z.array(schema).nonempty()`: an array whose elements all satisfy the
element schema, and which must contain at least one element. -/
def checkNonemptyArray {α : Type} (p : Value → VRes α) : Value → VRes (List α)
  | .arr [] => .err [{ code := "too_small", message := "Array must contain at least 1 element(s)", path := [] }]
  | .arr elems => parseArrayElems p 0 elems
  | _ => .err [invalidTypeIssue "array"]

/-- Accumulating application, used to combine the per-field results of an
object schema. -/
def VRes.app {α β : Type} (f : VRes (α → β)) (a : VRes α) : VRes β :=
  VRes.map2 (fun g x => g x) f a

/-! ## DynamoDB stream schemas (embedded from `src/schemas/dynamodb.ts`) -/

/-- The `StreamViewType` enum of the change record:
`z.enum(['NEW_IMAGE', 'OLD_IMAGE', 'NEW_AND_OLD_IMAGES', 'KEYS_ONLY'])`. -/
inductive StreamViewType where
  | NEW_IMAGE : StreamViewType
  | OLD_IMAGE : StreamViewType
  | NEW_AND_OLD_IMAGES : StreamViewType
  | KEYS_ONLY : StreamViewType
deriving Repr, DecidableEq

/-- The wire string of each `StreamViewType` variant. -/
def StreamViewType.toWire : StreamViewType → String
  | .NEW_IMAGE => "NEW_IMAGE"
  | .OLD_IMAGE => "OLD_IMAGE"
  | .NEW_AND_OLD_IMAGES => "NEW_AND_OLD_IMAGES"
  | .KEYS_ONLY => "KEYS_ONLY"

/-- Validation of the `StreamViewType` field. -/
def checkStreamViewType : Value → VRes StreamViewType
  | .str "NEW_IMAGE" => .ok .NEW_IMAGE
  | .str "OLD_IMAGE" => .ok .OLD_IMAGE
  | .str "NEW_AND_OLD_IMAGES" => .ok .NEW_AND_OLD_IMAGES
  | .str "KEYS_ONLY" => .ok .KEYS_ONLY
  | _ => .err [{ code := "invalid_enum_value", message := "Invalid enum value", path := [] }]

/-- The inferred type of `DynamoDBStreamChangeRecordBase`:
`Keys` is a record of still-marshalled attribute maps, `NewImage`/`OldImage`
are optional records, plus sequence number, size and the view-type
discriminant. -/
structure DynamoDBStreamChangeRecordT where
  ApproximateCreationDateTime : Option Int
  Keys : List (String × Value)
  NewImage : Option (List (String × Value))
  OldImage : Option (List (String × Value))
  SequenceNumber : String
  SizeBytes : Int
  StreamViewType : StreamViewType
deriving Repr

/-- `DynamoDBStreamChangeRecordBase`: the object schema of the change record,
before the unmarshalling transform (`dynamodb.ts` lines 7-20). Every declared
field is validated and the issues of all failing fields are collected. -/
def DynamoDBStreamChangeRecordBase (v : Value) : VRes DynamoDBStreamChangeRecordT :=
  match v with
  | .obj o =>
    (((((((VRes.ok DynamoDBStreamChangeRecordT.mk).app
      (optionalField o "ApproximateCreationDateTime" checkNumber)).app
      (requiredField o "Keys" checkAttributeMap)).app
      (optionalField o "NewImage" checkRecordAny)).app
      (optionalField o "OldImage" checkRecordAny)).app
      (requiredField o "SequenceNumber" checkString)).app
      (requiredField o "SizeBytes" checkNumber)).app
      (requiredField o "StreamViewType" checkStreamViewType)
  | _ => .err [invalidTypeIssue "object"]

/-- `unmarshallAttributeValue` (`dynamodb.ts` lines 37-53): unmarshall one of
the named attribute maps; on codec failure, add a custom fatal issue naming
the image that could not be unmarshalled, at that image's path, and abort
(`z.NEVER`). -/
def unmarshallAttributeValue (imageName : String)
    (image : List (String × Value)) : Except Issue (List (String × Value)) :=
  match unmarshallDynamoDB image with
  | some r => .ok r
  | none => .error
      { code := "custom"
        message := "Could not unmarshall " ++ imageName ++ " in DynamoDB stream record"
        fatal := true
        path := [.field imageName] }

/-- The step of `unmarshallDynamoDBTransform` for an optional image field:
an absent image is left absent; a present image is unmarshalled, failing with
the fatal issue of `unmarshallAttributeValue` (the source guards each image
with `if object.NewImage` / `if object.OldImage` and returns `z.NEVER` on
failure). -/
def unmarshallOptionalImage (imageName : String) :
    Option (List (String × Value)) → Except Issue (Option (List (String × Value)))
  | none => .ok none
  | some image =>
    match unmarshallAttributeValue imageName image with
    | .error i => .error i
    | .ok unmarshalled => .ok (some unmarshalled)

/-- `unmarshallDynamoDBTransform` (`dynamodb.ts` lines 29-73): build the
result on a shallow copy of the record, replacing `Keys` and, when present,
`NewImage` and `OldImage` by their unmarshalled values, in that order,
short-circuiting on the first failure (the source's early `return z.NEVER`);
all other fields are carried over from the copy unchanged. -/
def unmarshallDynamoDBTransform (object : DynamoDBStreamChangeRecordT) :
    Except Issue DynamoDBStreamChangeRecordT :=
  match unmarshallAttributeValue "Keys" object.Keys with
  | .error i => .error i
  | .ok unmarshalledKeys =>
    match unmarshallOptionalImage "NewImage" object.NewImage with
    | .error i => .error i
    | .ok newImage =>
      match unmarshallOptionalImage "OldImage" object.OldImage with
      | .error i => .error i
      | .ok oldImage =>
        .ok { object with Keys := unmarshalledKeys, NewImage := newImage, OldImage := oldImage }

/-- `DynamoDBStreamChangeRecord = DynamoDBStreamChangeRecordBase.transform(
unmarshallDynamoDBTransform)`: the transform runs only when the base schema
accepted the value; its fatal issue becomes the sole issue of the result. -/
def DynamoDBStreamChangeRecord (v : Value) : VRes DynamoDBStreamChangeRecordT :=
  match DynamoDBStreamChangeRecordBase v with
  | .err e => .err e
  | .ok object =>
    match unmarshallDynamoDBTransform object with
    | .ok r => .ok r
    | .error i => .err [i]

/-- The inferred type of `UserIdentity` (`dynamodb.ts` lines 79-82). -/
structure UserIdentityT where
  type : String
  principalId : String
deriving Repr

/-- `UserIdentity`: `type` must be the enum value `'Service'` and
`principalId` the literal `'dynamodb.amazonaws.com'`. -/
def UserIdentity (v : Value) : VRes UserIdentityT :=
  match v with
  | .obj o =>
    ((VRes.ok UserIdentityT.mk).app
      (requiredField o "type" (checkEnum ["Service"]))).app
      (requiredField o "principalId" (checkLiteral "dynamodb.amazonaws.com"))
  | _ => .err [invalidTypeIssue "object"]

/-- The inferred type of `DynamoDBStreamRecord` (`dynamodb.ts` lines 84-93). -/
structure DynamoDBStreamRecordT where
  eventID : String
  eventName : String
  eventVersion : String
  eventSource : String
  awsRegion : String
  eventSourceARN : String
  dynamodb : DynamoDBStreamChangeRecordT
  userIdentity : Option UserIdentityT
deriving Repr

/-- `DynamoDBStreamRecord`: one stream record; its `dynamodb` field is the
transformed change record. -/
def DynamoDBStreamRecord (v : Value) : VRes DynamoDBStreamRecordT :=
  match v with
  | .obj o =>
    ((((((((VRes.ok DynamoDBStreamRecordT.mk).app
      (requiredField o "eventID" checkString)).app
      (requiredField o "eventName" (checkEnum ["INSERT", "MODIFY", "REMOVE"]))).app
      (requiredField o "eventVersion" checkString)).app
      (requiredField o "eventSource" (checkLiteral "aws:dynamodb"))).app
      (requiredField o "awsRegion" checkString)).app
      (requiredField o "eventSourceARN" checkString)).app
      (requiredField o "dynamodb" DynamoDBStreamChangeRecord)).app
      (optionalField o "userIdentity" UserIdentity)
  | _ => .err [invalidTypeIssue "object"]

/-- Model of the collaborator's ISO-8601 datetime validation
(`z.iso.datetime()`), checking a whole-second UTC timestamp of the form
`YYYY-MM-DDTHH:MM:SSZ` as in the schema's documented example events. -/
def isIsoDatetime (s : String) : Bool :=
  match s.toList with
  | [y1, y2, y3, y4, '-', m1, m2, '-', d1, d2, 'T',
     h1, h2, ':', mi1, mi2, ':', s1, s2, 'Z'] =>
    [y1, y2, y3, y4, m1, m2, d1, d2, h1, h2, mi1, mi2, s1, s2].all Char.isDigit
  | _ => false

/-- `z.iso.datetime()` as a field schema. -/
def checkIsoDatetime : Value → VRes String
  | .str s =>
    if isIsoDatetime s then .ok s
    else .err [{ code := "invalid_string", message := "Invalid datetime", path := [] }]
  | _ => .err [invalidTypeIssue "string"]

/-- The inferred type of the `window` object of `DynamoDBStreamSchema`
(the source field `end` is spelled with guillemets because `end` is reserved
in Lean). -/
structure WindowT where
  start : String
  «end» : String
deriving Repr

/-- The `window` object schema of `DynamoDBStreamSchema`. -/
def checkWindow (v : Value) : VRes WindowT :=
  match v with
  | .obj o =>
    ((VRes.ok WindowT.mk).app
      (requiredField o "start" checkIsoDatetime)).app
      (requiredField o "end" checkIsoDatetime)
  | _ => .err [invalidTypeIssue "object"]

/-- The inferred type of `DynamoDBStreamSchema` (`dynamodb.ts` lines
258-271). -/
structure DynamoDBStreamEventT where
  Records : List DynamoDBStreamRecordT
  window : Option WindowT
  state : Option (List (String × String))
  shardId : Option String
  eventSourceARN : Option String
  isFinalInvokeForWindow : Option Bool
  isWindowTerminatedEarly : Option Bool
deriving Repr

/-- `DynamoDBStreamSchema`: the whole stream event; `Records` is a nonempty
array of stream records, the remaining fields optional. -/
def DynamoDBStreamSchema (v : Value) : VRes DynamoDBStreamEventT :=
  match v with
  | .obj o =>
    (((((((VRes.ok DynamoDBStreamEventT.mk).app
      (requiredField o "Records" (checkNonemptyArray DynamoDBStreamRecord))).app
      (optionalField o "window" checkWindow)).app
      (optionalField o "state" checkRecordString)).app
      (optionalField o "shardId" checkString)).app
      (optionalField o "eventSourceARN" checkString)).app
      (optionalField o "isFinalInvokeForWindow" checkBool)).app
      (optionalField o "isWindowTerminatedEarly" checkBool)
  | _ => .err [invalidTypeIssue "object"]

/-! ## Parse result boundary (modelled from the spec)

The envelope and parser entry points (`src/envelopes/*.ts`, `src/errors.ts`,
`src/parser.ts`) are outside the source excerpt — only their unit tests are
included — so the boundary is modelled from the spec. -/

/-- Modelled from the spec: `safeParse` over an arbitrary validation routine
— never throws; returns the validated data on success, or the uniform
`ParseError` (message naming the parsed kind + "Failed to parse ... body",
cause = the collected issues) together with the original, untransformed
event on failure. -/
def safeParseWith {α : Type} (p : Value → VRes α) (name : String)
    (event : Value) : Outcome α :=
  match p event with
  | .ok data => .success data
  | .err issues =>
    .failure { message := "Failed to parse " ++ name ++ " body", cause := issues } event

/-- Modelled from the spec: `parse` is `safeParse` with the failure branch
converted to a thrown error (modelled as `Except.error`). -/
def parseWith {α : Type} (p : Value → VRes α) (name : String)
    (event : Value) : Except ParseError α :=
  match safeParseWith p name event with
  | .success data => .ok data
  | .failure e _ => .error e

/-- Modelled from the spec: the outer-shape validation of the API Gateway
HTTP (v2) envelope, whose source file `src/envelopes/api-gatewayv2.ts` is
outside the excerpt. The envelope validates the required outer `rawPath`
string field, validates the `body` field with the caller's schema (a missing
body is a `Required` issue at `["body"]`), aggregates the issues of all
failing fields, and returns the validated body. -/
def gatewayValidate {α : Type} (schema : Value → VRes α) (event : Value) : VRes α :=
  match event with
  | .obj o =>
    VRes.map2 (fun _ b => b)
      (requiredField o "rawPath" checkString)
      (requiredField o "body" schema)
  | _ => .err [invalidTypeIssue "object"]

namespace ApiGatewayV2Envelope

/-- Modelled from the spec: `ApiGatewayV2Envelope.safeParse` — envelope
validation through the safe boundary, kind "API Gateway HTTP". -/
def safeParse {α : Type} (event : Value) (schema : Value → VRes α) : Outcome α :=
  safeParseWith (gatewayValidate schema) "API Gateway HTTP" event

/-- Modelled from the spec: `ApiGatewayV2Envelope.parse` — same logic with
the failure branch converted to a thrown `ParseError`. -/
def parse {α : Type} (event : Value) (schema : Value → VRes α) : Except ParseError α :=
  parseWith (gatewayValidate schema) "API Gateway HTTP" event

end ApiGatewayV2Envelope

/-! ## Concrete events and records used in the scenarios -/

/-- Whether a `safeParse` outcome succeeded. -/
def Outcome.isSuccess {α : Type} : Outcome α → Bool
  | .success _ => true
  | .failure _ _ => false

/-- Whether a `parse` result is a thrown error (the throwing branch of the
boundary, modelled as `Except.error`). -/
def isThrown {α : Type} : Except ParseError α → Bool
  | .error _ => true
  | .ok _ => false

/-- Scenario A's change payload (spec §8): view type `NEW_AND_OLD_IMAGES`,
numeric key `Id`, a `NewImage`, no `OldImage`. -/
def scenarioAChange : Value := .obj [
  ("Keys", .obj [("Id", .obj [("N", .str "101")])]),
  ("NewImage", .obj [("Message", .obj [("S", .str "hi")]), ("Id", .obj [("N", .str "101")])]),
  ("SequenceNumber", .str "111"),
  ("SizeBytes", .num 26),
  ("StreamViewType", .str "NEW_AND_OLD_IMAGES")]

/-- Scenario B's change payload: as Scenario A but `Keys.Id` carries two kind
tags (`N` and `S`), so it cannot be unmarshalled. -/
def scenarioBChange : Value := .obj [
  ("Keys", .obj [("Id", .obj [("N", .str "101"), ("S", .str "x")])]),
  ("NewImage", .obj [("Message", .obj [("S", .str "hi")]), ("Id", .obj [("N", .str "101")])]),
  ("SequenceNumber", .str "111"),
  ("SizeBytes", .num 26),
  ("StreamViewType", .str "NEW_AND_OLD_IMAGES")]

/-- A full stream record (as in the schema's documented example event)
wrapping the given change payload. -/
def streamRecordValue (change : Value) : Value := .obj [
  ("eventID", .str "1"),
  ("eventName", .str "INSERT"),
  ("eventVersion", .str "1.0"),
  ("eventSource", .str "aws:dynamodb"),
  ("awsRegion", .str "us-east-1"),
  ("eventSourceARN", .str "stream-ARN"),
  ("dynamodb", change)]

/-- A full stream event with a single record wrapping the given change
payload. -/
def mkStreamEvent (change : Value) : Value :=
  .obj [("Records", .arr [streamRecordValue change])]

/-- Scenario A's change record after the base schema (still marshalled), the
input of the unmarshalling transform. -/
def scenarioARecord : DynamoDBStreamChangeRecordT :=
  { ApproximateCreationDateTime := none
    Keys := [("Id", .obj [("N", .str "101")])]
    NewImage := some [("Message", .obj [("S", .str "hi")]), ("Id", .obj [("N", .str "101")])]
    OldImage := none
    SequenceNumber := "111"
    SizeBytes := 26
    StreamViewType := .NEW_AND_OLD_IMAGES }

/-- Scenario A's change record after unmarshalling. -/
def scenarioAUnmarshalled : DynamoDBStreamChangeRecordT :=
  { ApproximateCreationDateTime := none
    Keys := [("Id", Value.num 101)]
    NewImage := some [("Message", Value.str "hi"), ("Id", Value.num 101)]
    OldImage := none
    SequenceNumber := "111"
    SizeBytes := 26
    StreamViewType := .NEW_AND_OLD_IMAGES }

/-- Scenario B's change record after the base schema: its `Keys.Id` attribute
value carries two kind tags. -/
def scenarioBRecord : DynamoDBStreamChangeRecordT :=
  { scenarioARecord with
    Keys := [("Id", .obj [("N", .str "101"), ("S", .str "x")])] }

/-- The fatal issue the transform synthesizes when `Keys` cannot be
unmarshalled. -/
def keysUnmarshallIssue : Issue :=
  { code := "custom"
    message := "Could not unmarshall Keys in DynamoDB stream record"
    path := [.field "Keys"]
    fatal := true }

/-- The parsed stream record of Scenario A's one-record event. -/
def scenarioAParsedRecord : DynamoDBStreamRecordT :=
  { eventID := "1", eventName := "INSERT", eventVersion := "1.0"
    eventSource := "aws:dynamodb", awsRegion := "us-east-1"
    eventSourceARN := "stream-ARN", dynamodb := scenarioAUnmarshalled
    userIdentity := none }

/-- The parsed stream event of Scenario A's one-record event. -/
def scenarioAParsedEvent : DynamoDBStreamEventT :=
  { Records := [scenarioAParsedRecord], window := none, state := none
    shardId := none, eventSourceARN := none, isFinalInvokeForWindow := none
    isWindowTerminatedEarly := none }

/-- A change payload whose `StreamViewType` is `KEYS_ONLY` yet which carries
both a `NewImage` and an `OldImage`. -/
def keysOnlyWithImagesChange : Value := .obj [
  ("Keys", .obj [("Id", .obj [("N", .str "101")])]),
  ("NewImage", .obj [("Message", .obj [("S", .str "hi")])]),
  ("OldImage", .obj [("Message", .obj [("S", .str "old")])]),
  ("SequenceNumber", .str "111"),
  ("SizeBytes", .num 26),
  ("StreamViewType", .str "KEYS_ONLY")]

/-- The stream event wrapping `keysOnlyWithImagesChange`. -/
def keysOnlyWithImagesEvent : Value := mkStreamEvent keysOnlyWithImagesChange

/-- The parsed stream event of `keysOnlyWithImagesEvent`. -/
def keysOnlyWithImagesParsed : DynamoDBStreamEventT :=
  { Records := [{ scenarioAParsedRecord with
      dynamodb := { scenarioAUnmarshalled with
        NewImage := some [("Message", Value.str "hi")]
        OldImage := some [("Message", Value.str "old")]
        StreamViewType := .KEYS_ONLY } }]
    window := none, state := none, shardId := none, eventSourceARN := none
    isFinalInvokeForWindow := none, isWindowTerminatedEarly := none }

/-- A change payload with the given view type and a chosen combination of
present images (used to show acceptance is independent of the view type). -/
def mkChangeValue (svt : StreamViewType) (withNew withOld : Bool) : Value :=
  .obj (("Keys", Value.obj [("Id", .obj [("N", .str "101")])]) ::
    ((if withNew then [("NewImage", Value.obj [("Message", .obj [("S", .str "hi")])])] else []) ++
     (if withOld then [("OldImage", Value.obj [("Message", .obj [("S", .str "old")])])] else []) ++
     [("SequenceNumber", Value.str "111"),
      ("SizeBytes", Value.num 26),
      ("StreamViewType", Value.str svt.toWire)]))

/-- A stream event whose `Records` array is empty but whose shape is
otherwise well-formed. -/
def emptyRecordsEvent : Value := .obj [("Records", .arr [])]

/-- A user payload schema expecting an object with a string `message` field
(the schema used by the envelope unit tests). -/
def messageSchema (v : Value) : VRes String :=
  match v with
  | .obj o => requiredField o "message" checkString
  | _ => .err [invalidTypeIssue "object"]

/-- A gateway event missing both the required `rawPath` outer field and the
`body` field. -/
def c5Event : Value := .obj [("version", .str "2.0"), ("routeKey", .str "$default")]

/-- The failure the envelope reports on `c5Event`: one `ParseError` whose
cause aggregates the issues of both missing fields. -/
def c5Error : ParseError :=
  { message := "Failed to parse API Gateway HTTP body"
    cause := [requiredIssue "rawPath", requiredIssue "body"] }

/-- Scenario A's full one-record stream event. -/
def scenarioAEvent : Value := mkStreamEvent scenarioAChange

/-- The fatal issue the transform synthesizes when the named attribute map
cannot be unmarshalled, at that sub-field's path. -/
def imageUnmarshallIssue (imageName : String) : Issue :=
  { code := "custom"
    message := "Could not unmarshall " ++ imageName ++ " in DynamoDB stream record"
    path := [.field imageName]
    fatal := true }

/-- Scenario A's change record with its `NewImage.Id` attribute value
replaced by one carrying two kind tags, so `NewImage` cannot be
unmarshalled. -/
def badNewImageRecord : DynamoDBStreamChangeRecordT :=
  { scenarioARecord with
    NewImage := some [("Id", .obj [("N", .str "101"), ("S", .str "x")])] }

/-- Scenario A's change record with an `OldImage` added whose `Id` attribute
value carries two kind tags, so `OldImage` cannot be unmarshalled. -/
def badOldImageRecord : DynamoDBStreamChangeRecordT :=
  { scenarioARecord with
    OldImage := some [("Id", .obj [("N", .str "101"), ("S", .str "x")])] }

/-! ## Inversion lemmas for the validation combinators -/

theorem VRes.map2_eq_ok {α β γ : Type} {f : α → β → γ} {a : VRes α} {b : VRes β} {c : γ}
    (h : VRes.map2 f a b = .ok c) : ∃ x y, a = .ok x ∧ b = .ok y ∧ c = f x y := by
  cases a with
  | ok x =>
    cases b with
    | ok y =>
      refine ⟨x, y, rfl, rfl, ?_⟩
      simpa [VRes.map2] using h.symm
    | err e => simp [VRes.map2] at h
  | err e => cases b <;> simp [VRes.map2] at h

theorem VRes.app_eq_ok {α β : Type} {f : VRes (α → β)} {a : VRes α} {b : β}
    (h : VRes.app f a = .ok b) : ∃ g x, f = .ok g ∧ a = .ok x ∧ b = g x :=
  VRes.map2_eq_ok h

theorem VRes.pushPath_eq_ok {α : Type} {el : PathEl} {r : VRes α} {a : α}
    (h : VRes.pushPath el r = .ok a) : r = .ok a := by
  cases r with
  | ok x => simpa [VRes.pushPath] using h
  | err e => simp [VRes.pushPath] at h

theorem requiredField_eq_ok {α : Type} {o : List (String × Value)} {k : String}
    {p : Value → VRes α} {a : α} (h : requiredField o k p = .ok a) :
    ∃ v, o.lookup k = some v ∧ p v = .ok a := by
  unfold requiredField at h
  cases hl : o.lookup k with
  | none => rw [hl] at h; simp at h
  | some v => rw [hl] at h; exact ⟨v, rfl, VRes.pushPath_eq_ok h⟩

/-- A successful array validation relates input elements and output values
pairwise, in order: element `j` of the output is the successful validation of
element `j` of the input. -/
theorem parseArrayElems_ok {α : Type} {p : Value → VRes α} :
    ∀ {i : Nat} {vs : List Value} {out : List α},
    parseArrayElems p i vs = .ok out →
    List.Forall₂ (fun v a => p v = .ok a) vs out := by
  intro i vs
  induction vs generalizing i with
  | nil =>
    intro out h
    simp [parseArrayElems] at h
    simp [← h]
  | cons v rest ih =>
    intro out h
    unfold parseArrayElems at h
    obtain ⟨x, y, hx, hy, hout⟩ := VRes.map2_eq_ok h
    subst hout
    exact List.Forall₂.cons (VRes.pushPath_eq_ok hx) (ih hy)

theorem checkNonemptyArray_ok {α : Type} {p : Value → VRes α} {v : Value} {out : List α}
    (h : checkNonemptyArray p v = .ok out) :
    ∃ elems, v = .arr elems ∧ elems ≠ [] ∧
      List.Forall₂ (fun el a => p el = .ok a) elems out := by
  cases v with
  | arr elems =>
    cases elems with
    | nil => simp [checkNonemptyArray] at h
    | cons e rest =>
      exact ⟨e :: rest, rfl, by simp, parseArrayElems_ok h⟩
  | null => simp [checkNonemptyArray] at h
  | bool b => simp [checkNonemptyArray] at h
  | num n => simp [checkNonemptyArray] at h
  | str s => simp [checkNonemptyArray] at h
  | obj o => simp [checkNonemptyArray] at h

/-- A value accepted by `DynamoDBStreamSchema` is an object whose `Records`
field passed the nonempty-array-of-records check, producing exactly the
`Records` list of the output. -/
theorem DynamoDBStreamSchema_ok_records {v : Value} {ev : DynamoDBStreamEventT}
    (h : DynamoDBStreamSchema v = .ok ev) :
    ∃ o rv, v = .obj o ∧ o.lookup "Records" = some rv ∧
      checkNonemptyArray DynamoDBStreamRecord rv = .ok ev.Records := by
  cases v with
  | obj o =>
    unfold DynamoDBStreamSchema at h
    obtain ⟨g7, x7, h6, hf7, hev⟩ := VRes.app_eq_ok h
    obtain ⟨g6, x6, h5, hf6, hg7⟩ := VRes.app_eq_ok h6
    obtain ⟨g5, x5, h4, hf5, hg6⟩ := VRes.app_eq_ok h5
    obtain ⟨g4, x4, h3, hf4, hg5⟩ := VRes.app_eq_ok h4
    obtain ⟨g3, x3, h2, hf3, hg4⟩ := VRes.app_eq_ok h3
    obtain ⟨g2, x2, h1, hf2, hg3⟩ := VRes.app_eq_ok h2
    obtain ⟨g1, x1, h0, hf1, hg2⟩ := VRes.app_eq_ok h1
    have hg1 : g1 = DynamoDBStreamEventT.mk := by cases h0; rfl
    obtain ⟨rv, hlook, hcheck⟩ := requiredField_eq_ok hf1
    refine ⟨o, rv, rfl, hlook, ?_⟩
    have hrec : ev.Records = x1 := by
      subst hg1 hg2 hg3 hg4 hg5 hg6 hg7 hev
      rfl
    rw [hrec]
    exact hcheck
  | null => simp [DynamoDBStreamSchema] at h
  | bool b => simp [DynamoDBStreamSchema] at h
  | num n => simp [DynamoDBStreamSchema] at h
  | str s => simp [DynamoDBStreamSchema] at h
  | arr a => simp [DynamoDBStreamSchema] at h

/-! ## Claim theorems -/

/-- C1: for every validation routine run through the parse result boundary —
hence for every envelope variant — and every (event, schema) pair,
`safeParse` returns `success = false` exactly when `parse` throws; in
particular the two calling conventions of the API Gateway HTTP envelope
always agree on success/failure for the same input. -/
theorem parse_safeParse_agree :
    (∀ (α : Type) (p : Value → VRes α) (name : String) (e : Value),
      (safeParseWith p name e).isSuccess = false ↔ isThrown (parseWith p name e) = true) ∧
    (∀ (α : Type) (schema : Value → VRes α) (e : Value),
      (ApiGatewayV2Envelope.safeParse e schema).isSuccess = false ↔
        isThrown (ApiGatewayV2Envelope.parse e schema) = true) := by
  constructor
  · intro α p name e
    cases h : p e <;>
      simp [safeParseWith, parseWith, h, Outcome.isSuccess, isThrown]
  · intro α schema e
    cases h : gatewayValidate schema e <;>
      simp [ApiGatewayV2Envelope.safeParse, ApiGatewayV2Envelope.parse,
        safeParseWith, parseWith, h, Outcome.isSuccess, isThrown]

/-- C2: whenever a record's `Keys`, `NewImage` or `OldImage` attribute map
cannot be unmarshalled, the transform synthesizes exactly one fatal custom
issue at that sub-field's path (`["Keys"]`, `["NewImage"]` or `["OldImage"]`)
with a message indicating the unmarshalling failure, and short-circuits at
the first failing sub-field (no further unmarshalling or validation issue is
reported for the same record): a `Keys` failure reports only `Keys` whatever
the images contain; a `NewImage` failure (after `Keys` unmarshals) reports
only `NewImage`; an `OldImage` failure (after `Keys` and any `NewImage`
unmarshal) reports only `OldImage`. Concretely, on Scenario B's event
(`Keys.Id` carrying the two kind tags `N` and `S`), `parse` throws a
`ParseError` whose cause consists of exactly that issue, located at the
record's `Keys` field. -/
theorem unmarshall_fatal_shortcircuit :
    (∀ object : DynamoDBStreamChangeRecordT,
      unmarshallDynamoDB object.Keys = none →
      unmarshallDynamoDBTransform object = .error keysUnmarshallIssue) ∧
    (∀ (object : DynamoDBStreamChangeRecordT) (img uk : List (String × Value)),
      unmarshallDynamoDB object.Keys = some uk →
      object.NewImage = some img →
      unmarshallDynamoDB img = none →
      unmarshallDynamoDBTransform object = .error (imageUnmarshallIssue "NewImage")) ∧
    (∀ (object : DynamoDBStreamChangeRecordT) (img uk : List (String × Value))
        (ni : Option (List (String × Value))),
      unmarshallDynamoDB object.Keys = some uk →
      unmarshallOptionalImage "NewImage" object.NewImage = .ok ni →
      object.OldImage = some img →
      unmarshallDynamoDB img = none →
      unmarshallDynamoDBTransform object = .error (imageUnmarshallIssue "OldImage")) ∧
    parseWith DynamoDBStreamSchema "DynamoDB Stream" (mkStreamEvent scenarioBChange) = .error
      { message := "Failed to parse DynamoDB Stream body"
        cause := [{ keysUnmarshallIssue with
          path := [.field "Records", .index 0, .field "dynamodb", .field "Keys"] }] } := by
  refine ⟨?_, ?_, ?_, rfl⟩
  · intro object h
    unfold unmarshallDynamoDBTransform unmarshallAttributeValue
    rw [h]
    rfl
  · intro object img uk hk hni himg
    unfold unmarshallDynamoDBTransform unmarshallAttributeValue
    rw [hk, hni]
    simp only [unmarshallOptionalImage, unmarshallAttributeValue, himg]
    rfl
  · intro object img uk ni hk hn hoi himg
    unfold unmarshallDynamoDBTransform unmarshallAttributeValue
    rw [hk, hn, hoi]
    simp only [unmarshallOptionalImage, unmarshallAttributeValue, himg]
    rfl

/-- C2 witness: Scenario B's record has an un-unmarshallable `Keys` map and
the transform reports exactly the single fatal `Keys` issue; a record whose
`NewImage` (respectively `OldImage`) alone carries a two-tag attribute value
gets exactly the single fatal issue at that sub-field. -/
theorem unmarshall_fatal_shortcircuit_witness :
    unmarshallDynamoDBTransform scenarioBRecord = .error keysUnmarshallIssue ∧
    unmarshallDynamoDBTransform badNewImageRecord = .error (imageUnmarshallIssue "NewImage") ∧
    unmarshallDynamoDBTransform badOldImageRecord = .error (imageUnmarshallIssue "OldImage") :=
  ⟨unmarshall_fatal_shortcircuit.1 scenarioBRecord rfl,
   unmarshall_fatal_shortcircuit.2.1 badNewImageRecord
     [("Id", .obj [("N", .str "101"), ("S", .str "x")])]
     [("Id", Value.num 101)] rfl rfl rfl,
   unmarshall_fatal_shortcircuit.2.2.1 badOldImageRecord
     [("Id", .obj [("N", .str "101"), ("S", .str "x")])]
     [("Id", Value.num 101)]
     (some [("Message", Value.str "hi"), ("Id", Value.num 101)]) rfl rfl rfl rfl⟩

/-- C3 counterexample: the stream schema accepts a record whose
`StreamViewType` is `KEYS_ONLY` and which nevertheless carries both a
`NewImage` and an `OldImage`, so the discriminant does not restrict which
images may be present. -/
theorem keysOnly_with_images_accepted :
    DynamoDBStreamSchema keysOnlyWithImagesEvent = .ok keysOnlyWithImagesParsed ∧
    keysOnlyWithImagesParsed.Records.map
        (fun r => (r.dynamodb.StreamViewType, r.dynamodb.NewImage.isSome, r.dynamodb.OldImage.isSome)) =
      [(.KEYS_ONLY, true, true)] :=
  ⟨rfl, rfl⟩

/-- C3 amended: the schema constrains `StreamViewType` to the four enum
values but does not restrict which images are present: for every view type
and every combination of supplied images, the change-record schema accepts
the record, and the parsed record carries exactly the supplied view type and
image presence. -/
theorem viewType_not_restricting_images (svt : StreamViewType) (withNew withOld : Bool) :
    ∃ r, DynamoDBStreamChangeRecord (mkChangeValue svt withNew withOld) = .ok r ∧
      r.StreamViewType = svt ∧ r.NewImage.isSome = withNew ∧ r.OldImage.isSome = withOld := by
  cases svt <;> cases withNew <;> cases withOld <;> exact ⟨_, rfl, rfl, rfl, rfl⟩

/-- C4: whenever the parse result boundary reports a failure, the
`originalEvent` it returns is exactly the event value that was passed in,
never a transformed intermediate (the boundary builds the failure from the
untouched argument). -/
theorem safeParse_returns_original_event {α : Type} (p : Value → VRes α)
    (name : String) (e : Value) (err : ParseError) (orig : Value)
    (h : safeParseWith p name e = .failure err orig) : orig = e := by
  unfold safeParseWith at h
  cases hp : p e with
  | ok a => rw [hp] at h; simp at h
  | err issues => rw [hp] at h; cases h; rfl

/-- C4 witness: the API Gateway HTTP envelope's `safeParse` on the empty
object fails and hands back that same object. -/
theorem safeParse_returns_original_event_witness : (Value.obj []) = Value.obj [] :=
  safeParse_returns_original_event (gatewayValidate messageSchema)
    "API Gateway HTTP" (Value.obj []) c5Error (Value.obj []) rfl

/-- C5: a gateway event missing both the required `rawPath` outer field and
the `body` yields a single failure whose cause aggregates one issue per
missing field — both are reported, not only the first encountered. -/
theorem gateway_aggregates_missing_field_issues :
    ApiGatewayV2Envelope.safeParse c5Event messageSchema = .failure c5Error c5Event ∧
    requiredIssue "rawPath" ∈ c5Error.cause ∧
    requiredIssue "body" ∈ c5Error.cause ∧
    c5Error.cause.length = 2 :=
  ⟨rfl, by simp [c5Error], by simp [c5Error], rfl⟩

/-- C6 (Scenario A): on the record with view type `NEW_AND_OLD_IMAGES`,
`Keys = {"Id": {"N": "101"}}`, `NewImage = {"Message": {"S": "hi"},
"Id": {"N": "101"}}` and no `OldImage`, the transform succeeds, unmarshalling
`Keys` to `{Id: 101}` and `NewImage` to `{Message: "hi", Id: 101}`, while
`OldImage` remains absent. -/
theorem scenarioA_unmarshal_success :
    unmarshallDynamoDBTransform scenarioARecord = .ok scenarioAUnmarshalled ∧
    scenarioAUnmarshalled.Keys = [("Id", Value.num 101)] ∧
    scenarioAUnmarshalled.NewImage = some [("Message", Value.str "hi"), ("Id", Value.num 101)] ∧
    scenarioAUnmarshalled.OldImage = none :=
  ⟨rfl, rfl, rfl, rfl⟩

/-- C7: every failing `parse` of the API Gateway HTTP envelope throws the
uniform `ParseError` whose message names the envelope kind
("Failed to parse API Gateway HTTP body") and whose cause is exactly the
issue list of the underlying validation — never an inner exception. -/
theorem gateway_parse_error_uniform {α : Type} (schema : Value → VRes α)
    (e : Value) (pe : ParseError)
    (h : ApiGatewayV2Envelope.parse e schema = .error pe) :
    pe.message = "Failed to parse API Gateway HTTP body" ∧
    ∃ issues, gatewayValidate schema e = .err issues ∧ pe.cause = issues := by
  unfold ApiGatewayV2Envelope.parse parseWith safeParseWith at h
  cases hv : gatewayValidate schema e with
  | ok a => rw [hv] at h; simp at h
  | err issues =>
    rw [hv] at h
    simp at h
    cases h
    exact ⟨rfl, issues, rfl, rfl⟩

/-- C7 witness: the failing parse of `c5Event` carries the uniform message
and the underlying issue list. -/
theorem gateway_parse_error_uniform_witness :
    c5Error.message = "Failed to parse API Gateway HTTP body" ∧
    ∃ issues, gatewayValidate messageSchema c5Event = .err issues ∧ c5Error.cause = issues :=
  gateway_parse_error_uniform messageSchema c5Event c5Error rfl

/-- C8: when the stream schema accepts an event, the output `Records`
sequence has exactly one element per input record — equal length, order
preserved, element `j` of the output being the successful validation of
element `j` of the input, none skipped or reordered. -/
theorem stream_batch_length_order (v : Value) (ev : DynamoDBStreamEventT)
    (rs : List Value)
    (hp : DynamoDBStreamSchema v = .ok ev)
    (hr : lookupField v "Records" = some (.arr rs)) :
    ev.Records.length = rs.length ∧
    List.Forall₂ (fun rv r => DynamoDBStreamRecord rv = .ok r) rs ev.Records := by
  obtain ⟨o, rv, hv, hlook, hcheck⟩ := DynamoDBStreamSchema_ok_records hp
  subst hv
  simp only [lookupField] at hr
  rw [hlook] at hr
  cases hr
  obtain ⟨elems, harr, -, hfa⟩ := checkNonemptyArray_ok hcheck
  cases harr
  exact ⟨hfa.length_eq.symm, hfa⟩

/-- C8 witness: Scenario A's one-record event parses to a one-record output
whose single element is the validation of the single input record. -/
theorem stream_batch_length_order_witness :
    scenarioAParsedEvent.Records.length = [streamRecordValue scenarioAChange].length ∧
    List.Forall₂ (fun rv r => DynamoDBStreamRecord rv = .ok r)
      [streamRecordValue scenarioAChange] scenarioAParsedEvent.Records :=
  stream_batch_length_order scenarioAEvent scenarioAParsedEvent
    [streamRecordValue scenarioAChange] rfl rfl

/-- C9: the transform is pure and builds its output on a copy of its input
record (the source's `{ ...object }`), so the caller's record is never
mutated; every field other than `Keys`, `NewImage` and `OldImage` appears in
the successful result unchanged. -/
theorem transform_preserves_other_fields (object result : DynamoDBStreamChangeRecordT)
    (h : unmarshallDynamoDBTransform object = .ok result) :
    result.ApproximateCreationDateTime = object.ApproximateCreationDateTime ∧
    result.SequenceNumber = object.SequenceNumber ∧
    result.SizeBytes = object.SizeBytes ∧
    result.StreamViewType = object.StreamViewType := by
  unfold unmarshallDynamoDBTransform at h
  cases hk : unmarshallAttributeValue "Keys" object.Keys with
  | error i => rw [hk] at h; simp at h
  | ok uk =>
    rw [hk] at h
    cases hn : unmarshallOptionalImage "NewImage" object.NewImage with
    | error i => rw [hn] at h; simp at h
    | ok ni =>
      rw [hn] at h
      cases ho : unmarshallOptionalImage "OldImage" object.OldImage with
      | error i => rw [ho] at h; simp at h
      | ok oi =>
        rw [ho] at h
        cases h
        simp

/-- C9 witness: on Scenario A's record the non-image fields of the result
equal those of the input. -/
theorem transform_preserves_other_fields_witness :
    scenarioAUnmarshalled.ApproximateCreationDateTime = scenarioARecord.ApproximateCreationDateTime ∧
    scenarioAUnmarshalled.SequenceNumber = scenarioARecord.SequenceNumber ∧
    scenarioAUnmarshalled.SizeBytes = scenarioARecord.SizeBytes ∧
    scenarioAUnmarshalled.StreamViewType = scenarioARecord.StreamViewType :=
  transform_preserves_other_fields scenarioARecord scenarioAUnmarshalled rfl

/-- C10: the stream schema rejects an event whose `Records` array is empty
(with a too-small issue at `["Records"]`), and every accepted event has at
least one record. -/
theorem stream_schema_rejects_empty_records :
    DynamoDBStreamSchema emptyRecordsEvent = .err
      [{ code := "too_small", message := "Array must contain at least 1 element(s)"
         path := [.field "Records"] }] ∧
    ∀ (v : Value) (ev : DynamoDBStreamEventT),
      DynamoDBStreamSchema v = .ok ev → ev.Records ≠ [] := by
  refine ⟨rfl, ?_⟩
  intro v ev h
  obtain ⟨o, rv, -, -, hcheck⟩ := DynamoDBStreamSchema_ok_records h
  obtain ⟨elems, -, hne, hfa⟩ := checkNonemptyArray_ok hcheck
  intro habs
  rw [habs] at hfa
  cases hfa
  exact hne rfl

/-- C10 witness: Scenario A's accepted event has a nonempty `Records` list. -/
theorem stream_schema_rejects_empty_records_witness :
    scenarioAParsedEvent.Records ≠ [] :=
  stream_schema_rejects_empty_records.2 scenarioAEvent scenarioAParsedEvent rfl
